import Mathlib

set_option maxRecDepth 8192

namespace Denoise755

/-!
Shallow embedding of `src/video_processor.py` (module `video_processor`).

The module's externally observable behaviour is driven entirely by its
environment: the filesystem, the media library (`moviepy`), the audio
library (`librosa`) and the DeepFilterNet model (`df.init_df` / `df.enhance`).
An `Env` value fixes one behaviour of that environment; the embedded
`denoise_video` then computes the outcome (returned tuple or raised
`VideoProcessingError`), the registered temp files, the filesystem state
after the `finally` block, and the sequence of progress-callback values.

`asyncio.wait_for(coro, timeout)` is modelled by its documented contract:
the await raises `asyncio.TimeoutError` exactly when the awaited operation
takes longer than `timeout` seconds; the duration of each awaited operation
is an `Env` field.
-/

/-- Constants from the top of `video_processor.py`. -/
def MAX_FILE_SIZE : Nat := 50 * 1024 * 1024

/-- Duration ceiling (seconds) that only triggers a warning, line 30. -/
def MAX_DURATION : Nat := 300

/-- Enhancement timeout in seconds, line 31. -/
def PROCESSING_TIMEOUT : Nat := 300

/-! ### Python string primitives

`update_progress` uses `in`, `str.split`, `str.strip`, `str.replace` and
`float`.  They are embedded here as structurally recursive functions on
`List Char` so that every use is kernel-computable. -/

/-- Python list/str prefix test: `leadsList pre s` holds when `pre` is a
leading segment of `s`. -/
def leadsList : List Char → List Char → Bool
  | [], _ => true
  | _ :: _, [] => false
  | a :: as, b :: bs => a == b && leadsList as bs

/-- Python `sub in s` substring containment on character lists. -/
def containsSub : List Char → List Char → Bool
  | [], sub => sub.isEmpty
  | s@(_ :: t), sub => leadsList sub s || containsSub t sub

/-- Python `s.split(sep)` for a one-character separator: `"".split(sep)`
gives `[""]` and adjacent separators give empty fields, as in CPython. -/
def splitOnChar (sep : Char) : List Char → List (List Char)
  | [] => [[]]
  | c :: rest =>
    match splitOnChar sep rest, c == sep with
    | r, true => [] :: r
    | [], false => [[c]]
    | h :: t, false => (c :: h) :: t

/-- Python `s.lstrip()`: drop leading whitespace. -/
def dropLeadingWS : List Char → List Char
  | [] => []
  | c :: t => if c.isWhitespace then dropLeadingWS t else c :: t

/-- Python `s.strip()`: drop leading and trailing whitespace. -/
def stripWS (cs : List Char) : List Char :=
  ((dropLeadingWS ((dropLeadingWS cs).reverse)).reverse)

/-- Value of a non-empty all-digit character list. -/
def digitsVal (cs : List Char) : Nat :=
  cs.foldl (fun a c => a * 10 + (c.toNat - 48)) 0

/-- Check that a character list is non-empty and all digits. -/
def allDigits (cs : List Char) : Bool :=
  !cs.isEmpty && cs.all Char.isDigit

/-- Python `float(s)` on an unsigned decimal: `"50"`, `"50.5"`, `"50."`,
`".5"` parse; anything else (empty, spaces, letters, two dots) raises
`ValueError`, modelled as `none`.  Exponent and `inf`/`nan` forms never
arise from the percentage strings this module feeds to `float`. -/
def parseUnsigned (cs : List Char) : Option ℚ :=
  match splitOnChar '.' cs with
  | [w] => if allDigits w then some ((digitsVal w : ℚ)) else none
  | [w, f] =>
    if w.isEmpty && f.isEmpty then none
    else if w.all Char.isDigit && f.all Char.isDigit then
      some ((digitsVal w : ℚ) + (digitsVal f : ℚ) / ((10 : ℚ) ^ f.length))
    else none
  | _ => none

/-- Python `float(s)` with an optional sign. -/
def parsePyFloat (s : String) : Option ℚ :=
  match s.toList with
  | '+' :: rest => parseUnsigned rest
  | '-' :: rest => (parseUnsigned rest).map (fun q => -q)
  | cs => parseUnsigned cs

/-! ### Error taxonomy

The source raises `VideoProcessingError(message)` with fixed message texts;
each constructor below stands for one of those messages.  Errors returned
as a `(None, error_message)` tuple get their own type. -/

/-- Errors raised out of `denoise_video` as `VideoProcessingError`.
`inputTooLarge` is the message at line 105, `noAudioTrack` line 123,
`dfNotInstalled` line 62, `modelInitFailed` line 72, `modelInitTimeout`
line 154, `processingTimeout` line 170. -/
inductive PyErr
  | inputTooLarge
  | noAudioTrack
  | dfNotInstalled
  | modelInitFailed
  | modelInitTimeout
  | processingTimeout
deriving DecidableEq, Repr

/-- Errors reported by returning `(None, error_message)`:
`inputNotFound` is line 99, `unexpected` the catch-all at line 226. -/
inductive TupleErr
  | inputNotFound
  | unexpected
deriving DecidableEq, Repr

/-- Observable outcome of one `denoise_video` call: return
`(output_path, None)`, return `(None, msg)`, or raise. -/
inductive Outcome
  | success
  | errorReturn (e : TupleErr)
  | raised (e : PyErr)
deriving DecidableEq, Repr

/-- Spec classification `ProcessingTimeout` covers both timeout messages. -/
def PyErr.isProcessingTimeout : PyErr → Bool
  | .modelInitTimeout | .processingTimeout => true
  | _ => false

/-- Spec classification `ModelInitError` covers both init-failure messages. -/
def PyErr.isModelInitError : PyErr → Bool
  | .dfNotInstalled | .modelInitFailed => true
  | _ => false

/-! ### The process-wide model cache (`get_model`, lines 42-74) -/

/-- Module-level globals `_model`, `_df_state`, `_sr` (lines 43-45).
Model objects are abstracted as natural-number identities. -/
structure MState where
  modelG : Option Nat
  dfStateG : Option Nat
  srG : Option Nat
deriving DecidableEq, Repr

/-- Fresh process state: all three globals are `None`. -/
def freshMS : MState := ⟨none, none, none⟩

/-- Behaviour of the `df` dependency: `installed` is whether the import at
line 15 succeeded (`init_df is not None`); `initResult` is what `init_df()`
does when invoked — `some (model, df_state, sr)` for a normal return,
`none` when it raises. -/
structure DfEnv where
  installed : Bool
  initResult : Option (Nat × Nat × Nat)
deriving DecidableEq, Repr

/-- Embedding of `get_model` (lines 48-74).  Returns the call's result
(the `(model, df_state)` pair or the raised error), the updated globals,
and how many times `init_df` was invoked during this call (0 or 1). -/
def get_model (env : DfEnv) (s : MState) :
    Except PyErr (Nat × Option Nat) × MState × Nat :=
  match s.modelG with
  | some m => (Except.ok (m, s.dfStateG), s, 0)
  | none =>
    if env.installed = false then (Except.error PyErr.dfNotInstalled, s, 0)
    else
      match env.initResult with
      | some (m, st, sr) =>
        (Except.ok (m, some st), ⟨some m, some st, some sr⟩, 1)
      | none => (Except.error PyErr.modelInitFailed, s, 1)

/-- Run `n` successive `get_model` calls in one process, collecting the
final globals, the total number of `init_df` invocations, and the list of
per-call results. -/
def runCalls (env : DfEnv) (s : MState) :
    Nat → MState × Nat × List (Except PyErr (Nat × Option Nat))
  | 0 => (s, 0, [])
  | n + 1 =>
    match get_model env s with
    | (r, s1, k) =>
      match runCalls env s1 n with
      | (s2, k2, rs) => (s2, k + k2, r :: rs)

/-! ### Progress parsing (`update_progress`, lines 191-200)

The closure tests `progress_callback and "Progress" in msg`, then inside a
`try` guarded by `"%" in msg` computes
`float(msg.split(":")[1].strip().replace("%", "")) / 100` and invokes the
callback; `ValueError` (bad float) and `IndexError` (no `":"` in `msg`) are
swallowed by `pass`.  The embedding returns `some v` when the callback
would be invoked with `v` and `none` when nothing happens. -/

/-- Embedding of the `update_progress` closure. -/
def update_progress (hasCallback : Bool) (msg : String) : Option ℚ :=
  if hasCallback && containsSub msg.toList ("Progress".toList) then
    if containsSub msg.toList ("%".toList) then
      match (splitOnChar ':' msg.toList).get? 1 with
      | some part =>
        (parsePyFloat (String.mk ((stripWS part).filter (fun c => c != '%')))).map
          (fun q => q / 100)
      | none => none
    else none
  else none

/-! ### Filesystem fragment

Only the job's temporary scope matters to the claims: the directory made
by `tempfile.mkdtemp()` and the WAV files inside it.  A filesystem state
is the list of existing regular files and the list of existing
directories. -/

/-- Filesystem state restricted to the job's temporary artifacts. -/
structure FS where
  files : List String
  dirs : List String
deriving DecidableEq, Repr

/-- Python `os.path.exists`. -/
def FS.existsPath (fs : FS) (p : String) : Bool :=
  fs.files.contains p || fs.dirs.contains p

/-- Whether path `p` lies strictly inside directory `d`. -/
def insideDir (d p : String) : Bool :=
  leadsList (d ++ "/").toList p.toList

/-- Whether directory `d` still has an entry inside it, which makes
`os.rmdir(d)` raise `OSError` (ENOTEMPTY). -/
def FS.dirNonempty (fs : FS) (d : String) : Bool :=
  fs.files.any (fun p => insideDir d p) || fs.dirs.any (fun p => insideDir d p)

/-- One iteration of the cleanup loop (lines 244-252):
`if temp_file and os.path.exists(temp_file): rmdir if isdir else remove`,
with every `OSError` swallowed by the surrounding `except OSError: pass`.
`rf p = true` injects an environment-chosen `OSError` on deleting `p`. -/
def removeStep (rf : String → Bool) (fs : FS) (p : String) : FS :=
  if (p != "") && fs.existsPath p then
    if fs.dirs.contains p then
      if fs.dirNonempty p || rf p then fs
      else { fs with dirs := fs.dirs.erase p }
    else
      if rf p then fs else { fs with files := fs.files.erase p }
  else fs

/-- The whole cleanup loop `for temp_file in temp_files: ...` in
registration order. -/
def cleanup (rf : String → Bool) (fs : FS) (paths : List String) : FS :=
  paths.foldl (removeStep rf) fs

/-! ### The job environment and the embedded `denoise_video` -/

/-- Concrete path produced by `tempfile.mkdtemp()` (line 130). -/
def tempDir : String := "tmpdir"

/-- Path `os.path.join(temp_dir, "audio.wav")` (line 134). -/
def tempAudioPath : String := "tmpdir/audio.wav"

/-- Path `os.path.join(temp_dir, "enhanced.wav")` (line 177). -/
def enhancedAudioPath : String := "tmpdir/enhanced.wav"

/-- One behaviour of everything outside `denoise_video`.  Each `...Ok`
field says whether the corresponding library call returns normally
(`false` means it raises an exception that is not a
`VideoProcessingError`); the `...Time` fields are the durations of the two
awaited operations, governing `asyncio.wait_for`. -/
structure Env where
  inputExists : Bool
  fileSize : Nat
  loadOk : Bool
  duration : Nat
  hasAudio : Bool
  writeAudioOk : Bool
  installed : Bool
  initResult : Option (Nat × Nat × Nat)
  initTime : Nat
  loadAudioOk : Bool
  enhanceTime : Nat
  enhanceOk : Bool
  writeWavOk : Bool
  loadEnhancedOk : Bool
  writeVideoOk : Bool
  encoderMsgs : List String
  hasCallback : Bool
  removeFails : String → Bool

/-- Everything `denoise_video` did on top of its outcome: the registered
`temp_files` list, the temp-scope filesystem at the start of the `finally`
block, whether `VideoFileClip` was invoked (decode work), whether the
long-video warning fired, how many times `init_df` ran, the values passed
to `progress_callback` in order, whether the output file was written, and
the module globals afterwards. -/
structure Trace where
  temp_files : List String
  fs : FS
  decoded : Bool
  warned : Bool
  initCalls : Nat
  progress : List ℚ
  outputCreated : Bool
  ms : MState
deriving DecidableEq, Repr

/-- Embedding of the `try` body of `denoise_video` (lines 96-228) together
with the exception handlers: each early exit is the converted outcome the
handlers produce.  Note that `result.write_videofile` is called with
`logger=None` (line 208), so the `update_progress` closure defined at line
191 is never attached to the encoder and `env.encoderMsgs` go nowhere; the
only caller-visible progress invocation is `progress_callback(1.0)` at
line 212. -/
def denoiseBody (env : Env) (ms : MState) : Outcome × Trace :=
  if env.inputExists = false then
    (Outcome.errorReturn TupleErr.inputNotFound,
      ⟨[], ⟨[], []⟩, false, false, 0, [], false, ms⟩)
  else if MAX_FILE_SIZE < env.fileSize then
    (Outcome.raised PyErr.inputTooLarge,
      ⟨[], ⟨[], []⟩, false, false, 0, [], false, ms⟩)
  else if env.loadOk = false then
    (Outcome.errorReturn TupleErr.unexpected,
      ⟨[], ⟨[], []⟩, true, false, 0, [], false, ms⟩)
  else
    let warned := decide (MAX_DURATION < env.duration)
    if env.hasAudio = false then
      (Outcome.raised PyErr.noAudioTrack,
        ⟨[], ⟨[], []⟩, true, warned, 0, [], false, ms⟩)
    else if env.writeAudioOk = false then
      (Outcome.errorReturn TupleErr.unexpected,
        ⟨[tempDir, tempAudioPath], ⟨[], [tempDir]⟩, true, warned, 0, [], false, ms⟩)
    else if 60 < env.initTime then
      (Outcome.raised PyErr.modelInitTimeout,
        ⟨[tempDir, tempAudioPath], ⟨[tempAudioPath], [tempDir]⟩,
          true, warned, 0, [], false, ms⟩)
    else
      match get_model ⟨env.installed, env.initResult⟩ ms with
      | (Except.error e, ms1, k) =>
        (Outcome.raised e,
          ⟨[tempDir, tempAudioPath], ⟨[tempAudioPath], [tempDir]⟩,
            true, warned, k, [], false, ms1⟩)
      | (Except.ok _, ms1, k) =>
        if env.loadAudioOk = false then
          (Outcome.errorReturn TupleErr.unexpected,
            ⟨[tempDir, tempAudioPath], ⟨[tempAudioPath], [tempDir]⟩,
              true, warned, k, [], false, ms1⟩)
        else if PROCESSING_TIMEOUT < env.enhanceTime then
          (Outcome.raised PyErr.processingTimeout,
            ⟨[tempDir, tempAudioPath], ⟨[tempAudioPath], [tempDir]⟩,
              true, warned, k, [], false, ms1⟩)
        else if env.enhanceOk = false then
          (Outcome.errorReturn TupleErr.unexpected,
            ⟨[tempDir, tempAudioPath], ⟨[tempAudioPath], [tempDir]⟩,
              true, warned, k, [], false, ms1⟩)
        else if env.writeWavOk = false then
          (Outcome.errorReturn TupleErr.unexpected,
            ⟨[tempDir, tempAudioPath, enhancedAudioPath],
              ⟨[tempAudioPath], [tempDir]⟩, true, warned, k, [], false, ms1⟩)
        else if env.loadEnhancedOk = false then
          (Outcome.errorReturn TupleErr.unexpected,
            ⟨[tempDir, tempAudioPath, enhancedAudioPath],
              ⟨[tempAudioPath, enhancedAudioPath], [tempDir]⟩,
              true, warned, k, [], false, ms1⟩)
        else if env.writeVideoOk = false then
          (Outcome.errorReturn TupleErr.unexpected,
            ⟨[tempDir, tempAudioPath, enhancedAudioPath],
              ⟨[tempAudioPath, enhancedAudioPath], [tempDir]⟩,
              true, warned, k, [], false, ms1⟩)
        else
          (Outcome.success,
            ⟨[tempDir, tempAudioPath, enhancedAudioPath],
              ⟨[tempAudioPath, enhancedAudioPath], [tempDir]⟩,
              true, warned, k,
              (if env.hasCallback then [(1 : ℚ)] else []), true, ms1⟩)

/-- Result of one `denoise_video` call after the `finally` block ran. -/
structure Result where
  outcome : Outcome
  temp_files : List String
  fsAfter : FS
  decoded : Bool
  warned : Bool
  initCalls : Nat
  progressCalls : List ℚ
  outputCreated : Bool
  ms : MState

/-- Embedding of `denoise_video` (lines 77-252): run the body, then run
the `finally` cleanup loop over the registered `temp_files`. -/
def denoise_video (env : Env) (ms : MState) : Result :=
  let r := denoiseBody env ms
  { outcome := r.1
    temp_files := r.2.temp_files
    fsAfter := cleanup env.removeFails r.2.fs r.2.temp_files
    decoded := r.2.decoded
    warned := r.2.warned
    initCalls := r.2.initCalls
    progressCalls := r.2.progress
    outputCreated := r.2.outputCreated
    ms := r.2.ms }

/-! ### Concrete environments used by the closed theorems and witnesses -/

/-- Environment of a fully successful job: a 1 MB input with an audio
track, every library call returning normally, both awaited operations
fast, a working `init_df`, and a caller-supplied progress callback. -/
def goodEnv : Env :=
  { inputExists := true, fileSize := 1048576, loadOk := true, duration := 10,
    hasAudio := true, writeAudioOk := true, installed := true,
    initResult := some (1, 2, 48000), initTime := 1, loadAudioOk := true,
    enhanceTime := 5, enhanceOk := true, writeWavOk := true,
    loadEnhancedOk := true, writeVideoOk := true,
    encoderMsgs := ["Progress: 50%"], hasCallback := true,
    removeFails := fun _ => false }

/-- Module globals after a successful initialization. -/
def cachedMS : MState := ⟨some 1, some 2, some 48000⟩

/-! ### Equation lemmas: one per exit path of `denoiseBody` -/

/-- Reduction helper for a boolean test known to be `true`. -/
lemma if_bool_tf {α : Sort _} (a b : α) :
    (if (true : Bool) = false then a else b) = b := rfl

/-- Reduction helper for a boolean test known to be `false`. -/
lemma if_bool_ff {α : Sort _} (a b : α) :
    (if (false : Bool) = false then a else b) = a := rfl

/-- Exit at line 101: missing input file. -/
lemma body_notFound (env : Env) (ms : MState) (h1 : env.inputExists = false) :
    denoiseBody env ms =
      (Outcome.errorReturn TupleErr.inputNotFound,
        ⟨[], ⟨[], []⟩, false, false, 0, [], false, ms⟩) := by
  unfold denoiseBody
  simp only [h1, if_bool_ff, if_pos trivial]

/-- Exit at line 107: file over the 50 MB ceiling. -/
lemma body_tooLarge (env : Env) (ms : MState)
    (h1 : env.inputExists = true) (h2 : MAX_FILE_SIZE < env.fileSize) :
    denoiseBody env ms =
      (Outcome.raised PyErr.inputTooLarge,
        ⟨[], ⟨[], []⟩, false, false, 0, [], false, ms⟩) := by
  unfold denoiseBody
  simp only [h1, if_bool_tf, if_pos h2, if_pos trivial]

/-- Exit through the catch-all handler when `VideoFileClip` raises. -/
lemma body_loadFail (env : Env) (ms : MState)
    (h1 : env.inputExists = true) (h2 : env.fileSize ≤ MAX_FILE_SIZE)
    (h3 : env.loadOk = false) :
    denoiseBody env ms =
      (Outcome.errorReturn TupleErr.unexpected,
        ⟨[], ⟨[], []⟩, true, false, 0, [], false, ms⟩) := by
  unfold denoiseBody
  simp only [h1, h3, if_bool_tf, if_bool_ff, if_neg (Nat.not_lt.mpr h2), if_pos trivial]

/-- Exit at line 125: no audio track. -/
lemma body_noAudio (env : Env) (ms : MState)
    (h1 : env.inputExists = true) (h2 : env.fileSize ≤ MAX_FILE_SIZE)
    (h3 : env.loadOk = true) (h4 : env.hasAudio = false) :
    denoiseBody env ms =
      (Outcome.raised PyErr.noAudioTrack,
        ⟨[], ⟨[], []⟩, true, decide (MAX_DURATION < env.duration),
          0, [], false, ms⟩) := by
  unfold denoiseBody
  simp only [h1, h3, h4, if_bool_tf, if_bool_ff, if_neg (Nat.not_lt.mpr h2), if_pos trivial]

/-- Exit through the catch-all handler when `write_audiofile` raises;
the temp dir and the audio path are already registered. -/
lemma body_writeAudioFail (env : Env) (ms : MState)
    (h1 : env.inputExists = true) (h2 : env.fileSize ≤ MAX_FILE_SIZE)
    (h3 : env.loadOk = true) (h4 : env.hasAudio = true)
    (h5 : env.writeAudioOk = false) :
    denoiseBody env ms =
      (Outcome.errorReturn TupleErr.unexpected,
        ⟨[tempDir, tempAudioPath], ⟨[], [tempDir]⟩, true,
          decide (MAX_DURATION < env.duration), 0, [], false, ms⟩) := by
  unfold denoiseBody
  simp only [h1, h3, h4, h5, if_bool_tf, if_bool_ff, if_neg (Nat.not_lt.mpr h2), if_pos trivial]

/-- Exit at line 156: model-initialization await over 60 s. -/
lemma body_initTimeout (env : Env) (ms : MState)
    (h1 : env.inputExists = true) (h2 : env.fileSize ≤ MAX_FILE_SIZE)
    (h3 : env.loadOk = true) (h4 : env.hasAudio = true)
    (h5 : env.writeAudioOk = true) (h6 : 60 < env.initTime) :
    denoiseBody env ms =
      (Outcome.raised PyErr.modelInitTimeout,
        ⟨[tempDir, tempAudioPath], ⟨[tempAudioPath], [tempDir]⟩, true,
          decide (MAX_DURATION < env.duration), 0, [], false, ms⟩) := by
  unfold denoiseBody
  simp only [h1, h3, h4, h5, if_bool_tf, if_bool_ff,
    if_neg (Nat.not_lt.mpr h2), if_pos h6, if_pos trivial]

/-- Exit when `get_model` raises a `VideoProcessingError`, re-raised by
the handler at line 220. -/
lemma body_getModelErr (env : Env) (ms : MState) (e : PyErr)
    (ms1 : MState) (k : Nat)
    (h1 : env.inputExists = true) (h2 : env.fileSize ≤ MAX_FILE_SIZE)
    (h3 : env.loadOk = true) (h4 : env.hasAudio = true)
    (h5 : env.writeAudioOk = true) (h6 : env.initTime ≤ 60)
    (hg : get_model ⟨env.installed, env.initResult⟩ ms =
      (Except.error e, ms1, k)) :
    denoiseBody env ms =
      (Outcome.raised e,
        ⟨[tempDir, tempAudioPath], ⟨[tempAudioPath], [tempDir]⟩, true,
          decide (MAX_DURATION < env.duration), k, [], false, ms1⟩) := by
  unfold denoiseBody
  simp only [h1, h3, h4, h5, if_bool_tf, if_bool_ff,
    if_neg (Nat.not_lt.mpr h2), if_neg (Nat.not_lt.mpr h6), hg, if_pos trivial]

/-- Exit through the catch-all handler when `librosa.load` raises. -/
lemma body_loadAudioFail (env : Env) (ms : MState) (p : Nat × Option Nat)
    (ms1 : MState) (k : Nat)
    (h1 : env.inputExists = true) (h2 : env.fileSize ≤ MAX_FILE_SIZE)
    (h3 : env.loadOk = true) (h4 : env.hasAudio = true)
    (h5 : env.writeAudioOk = true) (h6 : env.initTime ≤ 60)
    (hg : get_model ⟨env.installed, env.initResult⟩ ms = (Except.ok p, ms1, k))
    (h8 : env.loadAudioOk = false) :
    denoiseBody env ms =
      (Outcome.errorReturn TupleErr.unexpected,
        ⟨[tempDir, tempAudioPath], ⟨[tempAudioPath], [tempDir]⟩, true,
          decide (MAX_DURATION < env.duration), k, [], false, ms1⟩) := by
  unfold denoiseBody
  simp only [h1, h3, h4, h5, h8, if_bool_tf, if_bool_ff,
    if_neg (Nat.not_lt.mpr h2), if_neg (Nat.not_lt.mpr h6), hg, if_pos trivial]

/-- Exit at line 172: enhancement await over 300 s. -/
lemma body_enhanceTimeout (env : Env) (ms : MState) (p : Nat × Option Nat)
    (ms1 : MState) (k : Nat)
    (h1 : env.inputExists = true) (h2 : env.fileSize ≤ MAX_FILE_SIZE)
    (h3 : env.loadOk = true) (h4 : env.hasAudio = true)
    (h5 : env.writeAudioOk = true) (h6 : env.initTime ≤ 60)
    (hg : get_model ⟨env.installed, env.initResult⟩ ms = (Except.ok p, ms1, k))
    (h8 : env.loadAudioOk = true)
    (h9 : PROCESSING_TIMEOUT < env.enhanceTime) :
    denoiseBody env ms =
      (Outcome.raised PyErr.processingTimeout,
        ⟨[tempDir, tempAudioPath], ⟨[tempAudioPath], [tempDir]⟩, true,
          decide (MAX_DURATION < env.duration), k, [], false, ms1⟩) := by
  unfold denoiseBody
  simp only [h1, h3, h4, h5, h8, if_bool_tf, if_bool_ff,
    if_neg (Nat.not_lt.mpr h2), if_neg (Nat.not_lt.mpr h6), hg, if_pos h9, if_pos trivial]

/-- Exit at line 216: the fully successful run. -/
lemma body_success (env : Env) (ms : MState) (p : Nat × Option Nat)
    (ms1 : MState) (k : Nat)
    (h1 : env.inputExists = true) (h2 : env.fileSize ≤ MAX_FILE_SIZE)
    (h3 : env.loadOk = true) (h4 : env.hasAudio = true)
    (h5 : env.writeAudioOk = true) (h6 : env.initTime ≤ 60)
    (hg : get_model ⟨env.installed, env.initResult⟩ ms = (Except.ok p, ms1, k))
    (h8 : env.loadAudioOk = true)
    (h9 : env.enhanceTime ≤ PROCESSING_TIMEOUT)
    (h10 : env.enhanceOk = true) (h11 : env.writeWavOk = true)
    (h12 : env.loadEnhancedOk = true) (h13 : env.writeVideoOk = true) :
    denoiseBody env ms =
      (Outcome.success,
        ⟨[tempDir, tempAudioPath, enhancedAudioPath],
          ⟨[tempAudioPath, enhancedAudioPath], [tempDir]⟩, true,
          decide (MAX_DURATION < env.duration), k,
          (if env.hasCallback then [(1 : ℚ)] else []), true, ms1⟩) := by
  unfold denoiseBody
  simp only [h1, h3, h4, h5, h8, h10, h11, h12, h13, if_bool_tf, if_bool_ff,
    if_neg (Nat.not_lt.mpr h2), if_neg (Nat.not_lt.mpr h6), hg,
    if_neg (Nat.not_lt.mpr h9), if_pos trivial]

/-- Exit through the catch-all handler when `enhance` raises. -/
lemma body_enhanceFail (env : Env) (ms : MState) (p : Nat × Option Nat)
    (ms1 : MState) (k : Nat)
    (h1 : env.inputExists = true) (h2 : env.fileSize ≤ MAX_FILE_SIZE)
    (h3 : env.loadOk = true) (h4 : env.hasAudio = true)
    (h5 : env.writeAudioOk = true) (h6 : env.initTime ≤ 60)
    (hg : get_model ⟨env.installed, env.initResult⟩ ms = (Except.ok p, ms1, k))
    (h8 : env.loadAudioOk = true)
    (h9 : env.enhanceTime ≤ PROCESSING_TIMEOUT) (h10 : env.enhanceOk = false) :
    denoiseBody env ms =
      (Outcome.errorReturn TupleErr.unexpected,
        ⟨[tempDir, tempAudioPath], ⟨[tempAudioPath], [tempDir]⟩, true,
          decide (MAX_DURATION < env.duration), k, [], false, ms1⟩) := by
  unfold denoiseBody
  simp only [h1, h3, h4, h5, h8, h10, if_bool_tf, if_bool_ff,
    if_neg (Nat.not_lt.mpr h2), if_neg (Nat.not_lt.mpr h6), hg,
    if_neg (Nat.not_lt.mpr h9), if_pos trivial]

/-- Exit through the catch-all handler when `librosa.output.write_wav`
raises; the enhanced path is already registered. -/
lemma body_writeWavFail (env : Env) (ms : MState) (p : Nat × Option Nat)
    (ms1 : MState) (k : Nat)
    (h1 : env.inputExists = true) (h2 : env.fileSize ≤ MAX_FILE_SIZE)
    (h3 : env.loadOk = true) (h4 : env.hasAudio = true)
    (h5 : env.writeAudioOk = true) (h6 : env.initTime ≤ 60)
    (hg : get_model ⟨env.installed, env.initResult⟩ ms = (Except.ok p, ms1, k))
    (h8 : env.loadAudioOk = true)
    (h9 : env.enhanceTime ≤ PROCESSING_TIMEOUT) (h10 : env.enhanceOk = true)
    (h11 : env.writeWavOk = false) :
    denoiseBody env ms =
      (Outcome.errorReturn TupleErr.unexpected,
        ⟨[tempDir, tempAudioPath, enhancedAudioPath],
          ⟨[tempAudioPath], [tempDir]⟩, true,
          decide (MAX_DURATION < env.duration), k, [], false, ms1⟩) := by
  unfold denoiseBody
  simp only [h1, h3, h4, h5, h8, h10, h11, if_bool_tf, if_bool_ff,
    if_neg (Nat.not_lt.mpr h2), if_neg (Nat.not_lt.mpr h6), hg,
    if_neg (Nat.not_lt.mpr h9), if_pos trivial]

/-- Exit through the catch-all handler when `AudioFileClip` raises. -/
lemma body_loadEnhancedFail (env : Env) (ms : MState) (p : Nat × Option Nat)
    (ms1 : MState) (k : Nat)
    (h1 : env.inputExists = true) (h2 : env.fileSize ≤ MAX_FILE_SIZE)
    (h3 : env.loadOk = true) (h4 : env.hasAudio = true)
    (h5 : env.writeAudioOk = true) (h6 : env.initTime ≤ 60)
    (hg : get_model ⟨env.installed, env.initResult⟩ ms = (Except.ok p, ms1, k))
    (h8 : env.loadAudioOk = true)
    (h9 : env.enhanceTime ≤ PROCESSING_TIMEOUT) (h10 : env.enhanceOk = true)
    (h11 : env.writeWavOk = true) (h12 : env.loadEnhancedOk = false) :
    denoiseBody env ms =
      (Outcome.errorReturn TupleErr.unexpected,
        ⟨[tempDir, tempAudioPath, enhancedAudioPath],
          ⟨[tempAudioPath, enhancedAudioPath], [tempDir]⟩, true,
          decide (MAX_DURATION < env.duration), k, [], false, ms1⟩) := by
  unfold denoiseBody
  simp only [h1, h3, h4, h5, h8, h10, h11, h12, if_bool_tf, if_bool_ff,
    if_neg (Nat.not_lt.mpr h2), if_neg (Nat.not_lt.mpr h6), hg,
    if_neg (Nat.not_lt.mpr h9), if_pos trivial]

/-- Exit through the catch-all handler when `write_videofile` raises;
no output file exists. -/
lemma body_writeVideoFail (env : Env) (ms : MState) (p : Nat × Option Nat)
    (ms1 : MState) (k : Nat)
    (h1 : env.inputExists = true) (h2 : env.fileSize ≤ MAX_FILE_SIZE)
    (h3 : env.loadOk = true) (h4 : env.hasAudio = true)
    (h5 : env.writeAudioOk = true) (h6 : env.initTime ≤ 60)
    (hg : get_model ⟨env.installed, env.initResult⟩ ms = (Except.ok p, ms1, k))
    (h8 : env.loadAudioOk = true)
    (h9 : env.enhanceTime ≤ PROCESSING_TIMEOUT) (h10 : env.enhanceOk = true)
    (h11 : env.writeWavOk = true) (h12 : env.loadEnhancedOk = true)
    (h13 : env.writeVideoOk = false) :
    denoiseBody env ms =
      (Outcome.errorReturn TupleErr.unexpected,
        ⟨[tempDir, tempAudioPath, enhancedAudioPath],
          ⟨[tempAudioPath, enhancedAudioPath], [tempDir]⟩, true,
          decide (MAX_DURATION < env.duration), k, [], false, ms1⟩) := by
  unfold denoiseBody
  simp only [h1, h3, h4, h5, h8, h10, h11, h12, h13, if_bool_tf, if_bool_ff,
    if_neg (Nat.not_lt.mpr h2), if_neg (Nat.not_lt.mpr h6), hg,
    if_neg (Nat.not_lt.mpr h9), if_pos trivial]

/-- Exhaustive shape of a run: every non-success exit leaves
`outputCreated = false` and an empty progress sequence, and the success
exit implies the enhancement stage completed within its bound and the only
progress invocation is the final `progress_callback(1.0)`. -/
lemma body_shape (env : Env) (ms : MState) :
    ((denoiseBody env ms).1 ≠ Outcome.success ∧
      (denoiseBody env ms).2.outputCreated = false ∧
      (denoiseBody env ms).2.progress = []) ∨
    ((denoiseBody env ms).1 = Outcome.success ∧
      (denoiseBody env ms).2.outputCreated = true ∧
      (denoiseBody env ms).2.progress =
        (if env.hasCallback then [(1 : ℚ)] else []) ∧
      env.enhanceOk = true ∧ env.enhanceTime ≤ PROCESSING_TIMEOUT) := by
  rcases hb1 : env.inputExists with _ | _
  · rw [body_notFound env ms hb1]
    exact Or.inl ⟨by simp, rfl, rfl⟩
  rcases le_or_lt env.fileSize MAX_FILE_SIZE with h2 | h2
  swap
  · rw [body_tooLarge env ms hb1 h2]
    exact Or.inl ⟨by simp, rfl, rfl⟩
  rcases hb3 : env.loadOk with _ | _
  · rw [body_loadFail env ms hb1 h2 hb3]
    exact Or.inl ⟨by simp, rfl, rfl⟩
  rcases hb4 : env.hasAudio with _ | _
  · rw [body_noAudio env ms hb1 h2 hb3 hb4]
    exact Or.inl ⟨by simp, rfl, rfl⟩
  rcases hb5 : env.writeAudioOk with _ | _
  · rw [body_writeAudioFail env ms hb1 h2 hb3 hb4 hb5]
    exact Or.inl ⟨by simp, rfl, rfl⟩
  rcases le_or_lt env.initTime 60 with h6 | h6
  swap
  · rw [body_initTimeout env ms hb1 h2 hb3 hb4 hb5 h6]
    exact Or.inl ⟨by simp, rfl, rfl⟩
  rcases hg : get_model ⟨env.installed, env.initResult⟩ ms with ⟨e | p, ms1, k⟩
  · rw [body_getModelErr env ms e ms1 k hb1 h2 hb3 hb4 hb5 h6 hg]
    exact Or.inl ⟨by simp, rfl, rfl⟩
  rcases hb8 : env.loadAudioOk with _ | _
  · rw [body_loadAudioFail env ms p ms1 k hb1 h2 hb3 hb4 hb5 h6 hg hb8]
    exact Or.inl ⟨by simp, rfl, rfl⟩
  rcases le_or_lt env.enhanceTime PROCESSING_TIMEOUT with h9 | h9
  swap
  · rw [body_enhanceTimeout env ms p ms1 k hb1 h2 hb3 hb4 hb5 h6 hg hb8 h9]
    exact Or.inl ⟨by simp, rfl, rfl⟩
  rcases hb10 : env.enhanceOk with _ | _
  · rw [body_enhanceFail env ms p ms1 k hb1 h2 hb3 hb4 hb5 h6 hg hb8 h9 hb10]
    exact Or.inl ⟨by simp, rfl, rfl⟩
  rcases hb11 : env.writeWavOk with _ | _
  · rw [body_writeWavFail env ms p ms1 k hb1 h2 hb3 hb4 hb5 h6 hg hb8 h9 hb10 hb11]
    exact Or.inl ⟨by simp, rfl, rfl⟩
  rcases hb12 : env.loadEnhancedOk with _ | _
  · rw [body_loadEnhancedFail env ms p ms1 k hb1 h2 hb3 hb4 hb5 h6 hg hb8 h9 hb10 hb11 hb12]
    exact Or.inl ⟨by simp, rfl, rfl⟩
  rcases hb13 : env.writeVideoOk with _ | _
  · rw [body_writeVideoFail env ms p ms1 k hb1 h2 hb3 hb4 hb5 h6 hg hb8 h9 hb10 hb11 hb12 hb13]
    exact Or.inl ⟨by simp, rfl, rfl⟩
  rw [body_success env ms p ms1 k hb1 h2 hb3 hb4 hb5 h6 hg hb8 h9 hb10 hb11 hb12 hb13]
  exact Or.inr ⟨rfl, rfl, rfl, rfl, h9⟩

/-- Once the globals hold a model, every further `get_model` call returns
the same cached pair and never invokes `init_df`. -/
lemma runCalls_cached (env : DfEnv) (m : Nat) (st sr : Option Nat) :
    ∀ n : Nat, runCalls env ⟨some m, st, sr⟩ n =
      (⟨some m, st, sr⟩, 0, List.replicate n (Except.ok (m, st)))
  | 0 => rfl
  | n + 1 => by
    have ih := runCalls_cached env m st sr n
    simp [runCalls, get_model, ih, List.replicate]

/-! ### Further concrete environments for witnesses -/

/-- Environment whose input file is one byte over the 50 MB ceiling. -/
def tooLargeEnv : Env := { goodEnv with fileSize := MAX_FILE_SIZE + 1 }

/-- Environment whose video has no audio track. -/
def noAudioEnv : Env := { goodEnv with hasAudio := false }

/-- Environment whose model-initialization await takes 61 s. -/
def initTimeoutEnv : Env := { goodEnv with initTime := 61 }

/-- Environment whose enhancement await takes 301 s. -/
def enhanceTimeoutEnv : Env := { goodEnv with enhanceTime := 301 }

/-- Environment whose input path does not exist. -/
def notFoundEnv : Env := { goodEnv with inputExists := false }

/-- Environment where `VideoFileClip` raises an unclassified exception. -/
def loadFailEnv : Env := { goodEnv with loadOk := false }

/-- Environment where `init_df()` raises on every invocation. -/
def initFailEnv : Env := { goodEnv with initResult := none }

/-! ### The claims -/

/-- Claim C1.  The claim says that after every `denoise_video` call all
registered temp paths are gone, removed files first and the now-empty
directory last.  The code registers the directory FIRST (line 131) and
the cleanup loop walks `temp_files` in registration order, so `os.rmdir`
runs while `audio.wav` and `enhanced.wav` still exist, its ENOTEMPTY
`OSError` is swallowed, the two files are then removed, and the — by then
empty — temporary directory still exists when the call returns.  This
theorem evaluates the embedded code on a fully successful job and
exhibits the surviving directory. -/
theorem tempdir_survives_successful_job :
    (denoise_video goodEnv freshMS).outcome = Outcome.success ∧
    (denoise_video goodEnv freshMS).temp_files =
      [tempDir, tempAudioPath, enhancedAudioPath] ∧
    (denoise_video goodEnv freshMS).fsAfter.files = [] ∧
    (denoise_video goodEnv freshMS).fsAfter.dirs = [tempDir] ∧
    FS.existsPath (denoise_video goodEnv freshMS).fsAfter tempDir = true :=
  ⟨rfl, rfl, rfl, rfl, rfl⟩

/-- Claim C2: an existing input over the 50 MB ceiling makes
`denoise_video` raise the file-too-large `VideoProcessingError` before
`VideoFileClip` is ever invoked (no decode work). -/
theorem size_ceiling_rejected_before_decode (env : Env) (ms : MState)
    (h1 : env.inputExists = true) (h2 : MAX_FILE_SIZE < env.fileSize) :
    (denoise_video env ms).outcome = Outcome.raised PyErr.inputTooLarge ∧
    (denoise_video env ms).decoded = false := by
  have e := body_tooLarge env ms h1 h2
  refine ⟨?_, ?_⟩
  · show (denoiseBody env ms).1 = _
    rw [e]
  · show (denoiseBody env ms).2.decoded = false
    rw [e]

/-- Witness for C2 at a 50 MB + 1 byte input. -/
theorem size_ceiling_rejected_before_decode_witness :
    (denoise_video tooLargeEnv freshMS).outcome =
      Outcome.raised PyErr.inputTooLarge ∧
    (denoise_video tooLargeEnv freshMS).decoded = false :=
  size_ceiling_rejected_before_decode tooLargeEnv freshMS rfl (by decide)

/-- Claim C3: when the enhancement await exceeds 300 s the job raises the
processing-timeout `VideoProcessingError` and no output file is created;
moreover, for every environment whatsoever, an output file is created
only if the enhancement returned normally within its 300 s bound. -/
theorem enhance_timeout_raises_and_no_output (env : Env) (ms : MState) (mm : Nat)
    (h1 : env.inputExists = true) (h2 : env.fileSize ≤ MAX_FILE_SIZE)
    (h3 : env.loadOk = true) (h4 : env.hasAudio = true)
    (h5 : env.writeAudioOk = true) (h6 : env.initTime ≤ 60)
    (hc : ms.modelG = some mm) (h8 : env.loadAudioOk = true)
    (h9 : PROCESSING_TIMEOUT < env.enhanceTime) :
    (denoise_video env ms).outcome = Outcome.raised PyErr.processingTimeout ∧
    (denoise_video env ms).outputCreated = false ∧
    (∀ (env2 : Env) (ms2 : MState),
      (denoise_video env2 ms2).outputCreated = true →
      env2.enhanceOk = true ∧ env2.enhanceTime ≤ PROCESSING_TIMEOUT) := by
  have hg : get_model ⟨env.installed, env.initResult⟩ ms =
      (Except.ok (mm, ms.dfStateG), ms, 0) := by
    unfold get_model
    rw [hc]
  have e := body_enhanceTimeout env ms (mm, ms.dfStateG) ms 0
    h1 h2 h3 h4 h5 h6 hg h8 h9
  refine ⟨?_, ?_, ?_⟩
  · show (denoiseBody env ms).1 = _
    rw [e]
  · show (denoiseBody env ms).2.outputCreated = false
    rw [e]
  · intro env2 ms2 hoc
    have hoc2 : (denoiseBody env2 ms2).2.outputCreated = true := hoc
    rcases body_shape env2 ms2 with ⟨_, hf, _⟩ | ⟨_, _, _, he, ht⟩
    · rw [hf] at hoc2
      exact Bool.noConfusion hoc2
    · exact ⟨he, ht⟩

/-- Witness for C3: a 301 s enhancement on an already-initialized model. -/
theorem enhance_timeout_raises_and_no_output_witness :
    (denoise_video enhanceTimeoutEnv cachedMS).outcome =
      Outcome.raised PyErr.processingTimeout ∧
    (denoise_video enhanceTimeoutEnv cachedMS).outputCreated = false := by
  have h := enhance_timeout_raises_and_no_output enhanceTimeoutEnv cachedMS 1
    rfl (by decide) rfl rfl rfl (by decide) rfl rfl (by decide)
  exact ⟨h.1, h.2.1⟩

/-- Claim C4: a model-initialization await over 60 s raises the
model-init-timeout error, which the spec classifies as
`ProcessingTimeout` and not as `ModelInitError`; independently, the
enhancement await is bounded by its own 300 s limit. -/
theorem init_timeout_is_processing_timeout (env : Env) (ms : MState)
    (h1 : env.inputExists = true) (h2 : env.fileSize ≤ MAX_FILE_SIZE)
    (h3 : env.loadOk = true) (h4 : env.hasAudio = true)
    (h5 : env.writeAudioOk = true) :
    (60 < env.initTime →
      (denoise_video env ms).outcome = Outcome.raised PyErr.modelInitTimeout ∧
      PyErr.modelInitTimeout.isProcessingTimeout = true ∧
      PyErr.modelInitTimeout.isModelInitError = false) ∧
    (∀ mm : Nat, ms.modelG = some mm → env.initTime ≤ 60 →
      env.loadAudioOk = true → PROCESSING_TIMEOUT < env.enhanceTime →
      (denoise_video env ms).outcome = Outcome.raised PyErr.processingTimeout) := by
  constructor
  · intro h6
    have e := body_initTimeout env ms h1 h2 h3 h4 h5 h6
    refine ⟨?_, rfl, rfl⟩
    show (denoiseBody env ms).1 = _
    rw [e]
  · intro mm hc h6 h8 h9
    have hg : get_model ⟨env.installed, env.initResult⟩ ms =
        (Except.ok (mm, ms.dfStateG), ms, 0) := by
      unfold get_model
      rw [hc]
    have e := body_enhanceTimeout env ms (mm, ms.dfStateG) ms 0
      h1 h2 h3 h4 h5 h6 hg h8 h9
    show (denoiseBody env ms).1 = _
    rw [e]

/-- Witness for C4: the 61 s init case and the 301 s enhancement case. -/
theorem init_timeout_is_processing_timeout_witness :
    (denoise_video initTimeoutEnv freshMS).outcome =
      Outcome.raised PyErr.modelInitTimeout ∧
    (denoise_video enhanceTimeoutEnv cachedMS).outcome =
      Outcome.raised PyErr.processingTimeout := by
  have hA := (init_timeout_is_processing_timeout initTimeoutEnv freshMS
    rfl (by decide) rfl rfl rfl).1 (by decide)
  have hB := (init_timeout_is_processing_timeout enhanceTimeoutEnv cachedMS
    rfl (by decide) rfl rfl rfl).2 1 rfl (by decide) rfl (by decide)
  exact ⟨hA.1, hB⟩

/-- Claim C5: a loadable, size-admissible video without an audio track
makes `denoise_video` raise the no-audio-track `VideoProcessingError`. -/
theorem no_audio_track_raises (env : Env) (ms : MState)
    (h1 : env.inputExists = true) (h2 : env.fileSize ≤ MAX_FILE_SIZE)
    (h3 : env.loadOk = true) (h4 : env.hasAudio = false) :
    (denoise_video env ms).outcome = Outcome.raised PyErr.noAudioTrack := by
  have e := body_noAudio env ms h1 h2 h3 h4
  show (denoiseBody env ms).1 = _
  rw [e]

/-- Witness for C5. -/
theorem no_audio_track_raises_witness :
    (denoise_video noAudioEnv freshMS).outcome =
      Outcome.raised PyErr.noAudioTrack :=
  no_audio_track_raises noAudioEnv freshMS rfl (by decide) rfl rfl

/-- Claim C6, counterexample.  The claim says `init_df` is invoked at
most once per process.  When `init_df` raises, `get_model` leaves
`_model = None`, so the next call invokes `init_df` again: two calls in a
process where `init_df` always raises invoke it twice. -/
theorem init_df_reinvoked_after_failed_init :
    (runCalls ⟨true, none⟩ freshMS 2).2.1 = 2 ∧
    ¬ ((runCalls ⟨true, none⟩ freshMS 2).2.1 ≤ 1) :=
  ⟨rfl, by decide⟩

/-- Claim C6, amended: provided `init_df` succeeds when invoked, a
process making `n + 1` calls to `get_model` invokes `init_df` exactly
once, and every call returns the same cached `(model, df_state)` pair. -/
theorem model_cached_after_successful_init (m st sr n : Nat) :
    (runCalls ⟨true, some (m, st, sr)⟩ freshMS (n + 1)).2.1 = 1 ∧
    (runCalls ⟨true, some (m, st, sr)⟩ freshMS (n + 1)).2.2 =
      List.replicate (n + 1) (Except.ok (m, some st)) := by
  have h1 : get_model ⟨true, some (m, st, sr)⟩ freshMS =
      (Except.ok (m, some st), ⟨some m, some st, some sr⟩, 1) := rfl
  have h2 := runCalls_cached ⟨true, some (m, st, sr)⟩ m (some st) (some sr) n
  constructor
  · simp [runCalls, h1, h2]
  · simp [runCalls, h1, h2, List.replicate_succ]

/-- Claim C7.  The claim says percentages in recognized encoder messages
are forwarded to the progress callback.  The closure `update_progress`
does parse such messages (first conjunct: it would forward 0.5 for
"Progress: 50%"), but `write_videofile` is called with `logger=None`
(line 208) and `update_progress` is never attached to the encoder, so on
a successful job whose encoder emits that very message the callback
receives only the final `1.0` and never the parsed 0.5. -/
theorem progress_parser_dead_code :
    goodEnv.encoderMsgs = ["Progress: 50%"] ∧
    update_progress true "Progress: 50%" = some (50 / 100) ∧
    (denoise_video goodEnv freshMS).outcome = Outcome.success ∧
    (denoise_video goodEnv freshMS).progressCalls = [1] :=
  ⟨rfl, rfl, rfl, rfl⟩

/-- Claim C8: for every job supplying a progress callback, the sequence
of callback values is non-decreasing, and on success the callback is
invoked exactly once, with 1.0 (hence the final invocation is 1.0). -/
theorem progress_calls_monotone_final_one (env : Env) (ms : MState)
    (h : env.hasCallback = true) :
    List.Chain' (fun a b : ℚ => a ≤ b) (denoise_video env ms).progressCalls ∧
    ((denoise_video env ms).outcome = Outcome.success →
      (denoise_video env ms).progressCalls = [1]) := by
  have e1 : (denoise_video env ms).progressCalls =
      (denoiseBody env ms).2.progress := rfl
  have e2 : (denoise_video env ms).outcome = (denoiseBody env ms).1 := rfl
  rcases body_shape env ms with ⟨hne, _, hp⟩ | ⟨hs, _, hp, _, _⟩
  · rw [e1, hp]
    exact ⟨List.chain'_nil, fun hc => absurd (e2.symm.trans hc) hne⟩
  · rw [e1, hp, h]
    simp

/-- Witness for C8 on the successful job. -/
theorem progress_calls_monotone_final_one_witness :
    List.Chain' (fun a b : ℚ => a ≤ b)
      (denoise_video goodEnv freshMS).progressCalls ∧
    ((denoise_video goodEnv freshMS).outcome = Outcome.success →
      (denoise_video goodEnv freshMS).progressCalls = [1]) :=
  progress_calls_monotone_final_one goodEnv freshMS rfl

/-- Claim C9: one cleanup iteration on an already-absent path is a
no-op (the `os.path.exists` guard skips it, nothing is raised), and an
environment-injected deletion failure (`OSError` on any path) never
changes the outcome of the job — the cleanup loop cannot mask the
primary result. -/
theorem cleanup_noop_and_never_masks :
    (∀ (rf : String → Bool) (fs : FS) (p : String),
      fs.existsPath p = false → removeStep rf fs p = fs) ∧
    (∀ (env : Env) (rf : String → Bool) (ms : MState),
      (denoise_video { env with removeFails := rf } ms).outcome =
        (denoise_video env ms).outcome) := by
  constructor
  · intro rf fs p h
    unfold removeStep
    rw [h]
    simp
  · intro env rf ms
    cases env
    rfl

/-- Witness for C9: removing a path from an empty filesystem under an
always-failing deleter is a no-op, and making every deletion fail on the
successful job leaves its outcome unchanged. -/
theorem cleanup_noop_and_never_masks_witness :
    removeStep (fun _ => true) ⟨[], []⟩ tempAudioPath = ⟨[], []⟩ ∧
    (denoise_video { goodEnv with removeFails := fun _ => true } freshMS).outcome
      = (denoise_video goodEnv freshMS).outcome :=
  ⟨cleanup_noop_and_never_masks.1 (fun _ => true) ⟨[], []⟩ tempAudioPath rfl,
    cleanup_noop_and_never_masks.2 goodEnv (fun _ => true) freshMS⟩

/-- Claim C10: the two error channels.  A missing input path and an
unclassified exception are reported by returning `(None, error_message)`,
while every classified error — file too large, no audio track, model-init
failure, init timeout, enhancement timeout — is raised out of the
function as a `VideoProcessingError`. -/
theorem error_channel_split :
    (∀ (env : Env) (ms : MState), env.inputExists = false →
      (denoise_video env ms).outcome =
        Outcome.errorReturn TupleErr.inputNotFound) ∧
    (∀ (env : Env) (ms : MState), env.inputExists = true →
      env.fileSize ≤ MAX_FILE_SIZE → env.loadOk = false →
      (denoise_video env ms).outcome =
        Outcome.errorReturn TupleErr.unexpected) ∧
    (∀ (env : Env) (ms : MState), env.inputExists = true →
      MAX_FILE_SIZE < env.fileSize →
      (denoise_video env ms).outcome = Outcome.raised PyErr.inputTooLarge) ∧
    (∀ (env : Env) (ms : MState), env.inputExists = true →
      env.fileSize ≤ MAX_FILE_SIZE → env.loadOk = true → env.hasAudio = false →
      (denoise_video env ms).outcome = Outcome.raised PyErr.noAudioTrack) ∧
    (∀ (env : Env) (ms : MState), env.inputExists = true →
      env.fileSize ≤ MAX_FILE_SIZE → env.loadOk = true → env.hasAudio = true →
      env.writeAudioOk = true → env.initTime ≤ 60 → ms.modelG = none →
      env.installed = true → env.initResult = none →
      (denoise_video env ms).outcome = Outcome.raised PyErr.modelInitFailed) ∧
    (∀ (env : Env) (ms : MState), env.inputExists = true →
      env.fileSize ≤ MAX_FILE_SIZE → env.loadOk = true → env.hasAudio = true →
      env.writeAudioOk = true → 60 < env.initTime →
      (denoise_video env ms).outcome = Outcome.raised PyErr.modelInitTimeout) ∧
    (∀ (env : Env) (ms : MState) (mm : Nat), env.inputExists = true →
      env.fileSize ≤ MAX_FILE_SIZE → env.loadOk = true → env.hasAudio = true →
      env.writeAudioOk = true → env.initTime ≤ 60 → ms.modelG = some mm →
      env.loadAudioOk = true → PROCESSING_TIMEOUT < env.enhanceTime →
      (denoise_video env ms).outcome = Outcome.raised PyErr.processingTimeout) := by
  refine ⟨?_, ?_, ?_, ?_, ?_, ?_, ?_⟩
  · intro env ms h1
    have e := body_notFound env ms h1
    show (denoiseBody env ms).1 = _
    rw [e]
  · intro env ms h1 h2 h3
    have e := body_loadFail env ms h1 h2 h3
    show (denoiseBody env ms).1 = _
    rw [e]
  · intro env ms h1 h2
    have e := body_tooLarge env ms h1 h2
    show (denoiseBody env ms).1 = _
    rw [e]
  · intro env ms h1 h2 h3 h4
    have e := body_noAudio env ms h1 h2 h3 h4
    show (denoiseBody env ms).1 = _
    rw [e]
  · intro env ms h1 h2 h3 h4 h5 h6 hmg hins hres
    have hg : get_model ⟨env.installed, env.initResult⟩ ms =
        (Except.error PyErr.modelInitFailed, ms, 1) := by
      unfold get_model
      rw [hmg, hins, hres]
      rfl
    have e := body_getModelErr env ms PyErr.modelInitFailed ms 1
      h1 h2 h3 h4 h5 h6 hg
    show (denoiseBody env ms).1 = _
    rw [e]
  · intro env ms h1 h2 h3 h4 h5 h6
    have e := body_initTimeout env ms h1 h2 h3 h4 h5 h6
    show (denoiseBody env ms).1 = _
    rw [e]
  · intro env ms mm h1 h2 h3 h4 h5 h6 hc h8 h9
    have hg : get_model ⟨env.installed, env.initResult⟩ ms =
        (Except.ok (mm, ms.dfStateG), ms, 0) := by
      unfold get_model
      rw [hc]
    have e := body_enhanceTimeout env ms (mm, ms.dfStateG) ms 0
      h1 h2 h3 h4 h5 h6 hg h8 h9
    show (denoiseBody env ms).1 = _
    rw [e]

/-- Witness for C10: each of the seven channels exercised on a concrete
environment. -/
theorem error_channel_split_witness :
    (denoise_video notFoundEnv freshMS).outcome =
      Outcome.errorReturn TupleErr.inputNotFound ∧
    (denoise_video loadFailEnv freshMS).outcome =
      Outcome.errorReturn TupleErr.unexpected ∧
    (denoise_video tooLargeEnv cachedMS).outcome =
      Outcome.raised PyErr.inputTooLarge ∧
    (denoise_video noAudioEnv cachedMS).outcome =
      Outcome.raised PyErr.noAudioTrack ∧
    (denoise_video initFailEnv freshMS).outcome =
      Outcome.raised PyErr.modelInitFailed ∧
    (denoise_video initTimeoutEnv cachedMS).outcome =
      Outcome.raised PyErr.modelInitTimeout ∧
    (denoise_video enhanceTimeoutEnv cachedMS).outcome =
      Outcome.raised PyErr.processingTimeout := by
  have h := error_channel_split
  refine ⟨h.1 notFoundEnv freshMS rfl,
    h.2.1 loadFailEnv freshMS rfl (by decide) rfl,
    h.2.2.1 tooLargeEnv cachedMS rfl (by decide),
    h.2.2.2.1 noAudioEnv cachedMS rfl (by decide) rfl rfl,
    h.2.2.2.2.1 initFailEnv freshMS rfl (by decide) rfl rfl rfl (by decide) rfl rfl rfl,
    h.2.2.2.2.2.1 initTimeoutEnv cachedMS rfl (by decide) rfl rfl rfl (by decide),
    h.2.2.2.2.2.2 enhanceTimeoutEnv cachedMS 1 rfl (by decide) rfl rfl rfl
      (by decide) rfl rfl (by decide)⟩

end Denoise755
